import Mathlib

/-!
Formal model of the `securionpay` Go client library.

The definitions below are a shallow embedding of the package's source
(`securionpay.go`): the data structures mirror the Go structs field by
field, JSON marshaling is modelled at the level of a JSON value tree
(`JValue`), and each client operation is modelled as a pure function that
runs the operation's pre-network code: validation, endpoint resolution and
request-body marshaling.  An operation either fails locally (`fail`) or
produces the HTTP request it would dispatch (`send`); the network itself
is outside the model.  The response-classification step of the transport
pipeline (`doAuthThenReqAndSlurpResponse`) is modelled separately as a
function on received responses.

Go `int`/`int64` fields are modelled as unbounded `Int`; none of the
verified properties depend on 64-bit overflow behaviour.
-/

namespace Securionpay

/-- Models Go `unicode.IsSpace` restricted to the Latin-1 white-space
characters (space, tab, newline, vertical tab, form feed, carriage
return, next line, no-break space).  The claims only ever exercise
ASCII white space. -/
def goIsSpace (c : Char) : Bool :=
  c = ' ' || c = '\t' || c = '\n' || c = '\x0B' || c = '\x0C' || c = '\r' ||
  c = '\u0085' || c = ' '

/-- Models Go `strings.TrimSpace`: drop white space from both ends. -/
def trimSpace (s : String) : String :=
  ⟨((s.data.dropWhile goIsSpace).reverse.dropWhile goIsSpace).reverse⟩

/-! Decimal printing and parsing, modelling the Go standard library's
`strconv` routines as used by `encoding/json` for fields tagged
`json:",string"` (`strconv.AppendInt` on encode, `strconv.ParseInt` on
decode). -/

/-- The decimal digit character for a digit value (only applied to
values `< 10`, which is all that `% 10` can produce). -/
def digitToChar : Nat → Char
  | 0 => '0' | 1 => '1' | 2 => '2' | 3 => '3' | 4 => '4'
  | 5 => '5' | 6 => '6' | 7 => '7' | 8 => '8' | _ => '9'

/-- Numeric value of a decimal digit character (junk value 0 for
non-digits; always guarded by `isDigitChar`). -/
def charToDigit (c : Char) : Nat := c.toNat - 48

/-- Whether a character is a decimal digit. -/
def isDigitChar (c : Char) : Bool := '0' ≤ c && c ≤ '9'

/-- Little-endian digit characters of `n`; `fuel` bounds the recursion
and any `fuel ≥ n` gives the full digit string. -/
def printNatAux : Nat → Nat → List Char
  | 0, _ => []
  | _ + 1, 0 => []
  | f + 1, n + 1 => digitToChar ((n + 1) % 10) :: printNatAux f ((n + 1) / 10)

/-- Decimal digit characters of `n`, most significant first. -/
def printNatCore (n : Nat) : List Char :=
  if n = 0 then ['0'] else (printNatAux n n).reverse

/-- Decimal rendering of a natural number. -/
def printNat (n : Nat) : String := ⟨printNatCore n⟩

/-- Decimal rendering of an integer, modelling `strconv.AppendInt`. -/
def printInt (i : Int) : String :=
  if i < 0 then ⟨'-' :: printNatCore i.natAbs⟩ else ⟨printNatCore i.toNat⟩

/-- Value of a most-significant-first digit string. -/
def parseNatList (l : List Char) : Nat :=
  l.foldl (fun acc c => 10 * acc + charToDigit c) 0

/-- Parse an unsigned decimal digit string; `none` on the empty string or
any non-digit character, as in `strconv.ParseUint`. -/
def parseNatChars (l : List Char) : Option Nat :=
  if l = [] then none
  else if l.all isDigitChar then some (parseNatList l) else none

/-- Parse a decimal integer with optional sign, modelling
`strconv.ParseInt` (64-bit range checking elided). -/
def parseIntStr (s : String) : Option Int :=
  match s.data with
  | [] => none
  | c :: rest =>
    if c = '+' then (parseNatChars rest).map (fun n => (n : Int))
    else if c = '-' then (parseNatChars rest).map (fun n => -(n : Int))
    else (parseNatChars (c :: rest)).map (fun n => (n : Int))

/-! The error values declared at package level with `errors.New`.  Each Go
error variable becomes one constructor, so distinct Go error values are
distinct constructors. -/

inductive GoErr where
  | errInvalidCustomerID
  | errBlankCard
  | errUnsetCardID
  | errBlankTokenID
  | errBlankAddCardRequest
  | errBlankCharge
  | errEitherBlankCardOrCustomerIDMustBeSet
  | errNilTokenRequest
  | errEmptySecurityCode
  deriving DecidableEq

/-- The message each `errors.New` call in the source attaches to its
error value. -/
def GoErr.message : GoErr → String
  | .errInvalidCustomerID => "invalid customerID"
  | .errBlankCard => "expecting a non-blank card"
  | .errUnsetCardID => "expecting the card ID to have been set"
  | .errBlankTokenID => "expecting a non-blank token ID"
  | .errBlankAddCardRequest => "expecting a non-blank card request"
  | .errBlankCharge => "expecting a non-blank charge"
  | .errEitherBlankCardOrCustomerIDMustBeSet => "either `customerId` or `card` must be set"
  | .errNilTokenRequest => "nil token request passed in"
  | .errEmptySecurityCode => "expecting a non-empty security code aka \"cvc\""

/-- Failure of `strconv.Unquote` (Go's `ErrSyntax`). -/
inductive UnquoteError where
  | errSyntax
  deriving DecidableEq

/-- Models the Go standard library's `strconv.Unquote`: the input must be
at least two characters long, begin and end with the same quote
character, and that character must be a double quote (the raw-string
backquote and single-quote character forms, and backslash escape
sequences, are elided from the model and mapped to the syntax error; no
claim exercises them).  In particular any input not wrapped in quotes,
such as the four characters of a JSON `null` literal, is a syntax
error — exactly as in Go, where `Unquote` inspects the first and last
byte before anything else. -/
def goUnquote (s : String) : Except UnquoteError String :=
  match s.data with
  | [] => .error .errSyntax
  | [_] => .error .errSyntax
  | first :: rest =>
    match rest.getLast? with
    | none => .error .errSyntax
    | some lastc =>
      if first ≠ lastc then .error .errSyntax
      else if first = '"' then
        let inner := rest.dropLast
        if inner.all (fun c => c ≠ '\\' && c ≠ '"' && c ≠ '\n') then .ok ⟨inner⟩
        else .error .errSyntax
      else .error .errSyntax

/-- Models `CustomerID.UnmarshalJSON`.  The source reads

  str := string(b); if str == "null" then str = ""

but `str` is never used afterwards: the subsequent call is
`strconv.Unquote(string(b))` on the original bytes, whose result (or
error) is what the method returns.  The dead local is kept here as
`_str` so the translation matches the source line for line. -/
def customerIDUnmarshalJSON (b : String) : Except UnquoteError String :=
  let str := b
  let _str := if str = "null" then "" else str
  match goUnquote b with
  | .error e => .error e
  | .ok unquoted => .ok unquoted

/-! JSON values.  `encoding/json` marshaling is modelled at the level of
this value tree: a Go struct marshals to an `obj` whose fields appear in
struct order, with `omitempty` fields dropped when their value is the
zero value.  Decoding models Go's behaviour of matching keys, leaving a
field at its zero value when its key is absent or the value is `null`,
and failing on a type mismatch. -/

inductive JValue where
  | null
  | bool (b : Bool)
  | num (n : Int)
  | str (s : String)
  | arr (elems : List JValue)
  | obj (fields : List (String × JValue))

/-- Locate a field by key, first match wins (marshaled objects never
repeat a key). -/
def lookupField (key : String) : List (String × JValue) → Option JValue
  | [] => none
  | (k, v) :: rest => if k = key then some v else lookupField key rest

/-- An `omitempty` string field: dropped when the string is empty. -/
def optStrField (k : String) (s : String) : List (String × JValue) :=
  if s = "" then [] else [(k, .str s)]

/-- Hexadecimal digit character. -/
def hexDigitChar (n : Nat) : Char :=
  if n < 10 then digitToChar n
  else if n = 10 then 'a' else if n = 11 then 'b' else if n = 12 then 'c'
  else if n = 13 then 'd' else if n = 14 then 'e' else 'f'

/-- Escaping of one character under Go's `strconv.Quote`: printable
ASCII passes through, common escapes use their mnemonic form, other
characters take a hexadecimal escape.  (Exact for ASCII; Go's handling
of a few rarer escapes is approximated, and no claim reaches them.) -/
def quoteCharGo (c : Char) : List Char :=
  if c = '"' then ['\\', '"']
  else if c = '\\' then ['\\', '\\']
  else if c = '\n' then ['\\', 'n']
  else if c = '\t' then ['\\', 't']
  else if c = '\r' then ['\\', 'r']
  else if 0x20 ≤ c.toNat && c.toNat < 0x7F then [c]
  else if c.toNat < 0x100 then
    ['\\', 'x', hexDigitChar (c.toNat / 16), hexDigitChar (c.toNat % 16)]
  else
    ['\\', 'u', hexDigitChar (c.toNat / 4096 % 16), hexDigitChar (c.toNat / 256 % 16),
     hexDigitChar (c.toNat / 16 % 16), hexDigitChar (c.toNat % 16)]

/-- Models `strconv.Quote`. -/
def goQuote (s : String) : String :=
  ⟨'"' :: ((s.data.map quoteCharGo).flatten ++ ['"'])⟩

/-- The string an `ObjectType` value marshals to: the trimmed value,
defaulting to `"card"` when the trimmed value is empty. -/
def objectTypeValue (s : String) : String :=
  let stripped := trimSpace s
  if stripped = "" then "card" else stripped

/-- Models `ObjectType.MarshalJSON` on a possibly-nil receiver (`none`
models a nil `*ObjectType`): produces the raw bytes of the marshaled
value, which is always a quoted string. -/
def objectTypeMarshalJSON (ot : Option String) : String :=
  let str := match ot with
    | none => "card"
    | some s => objectTypeValue s
  goQuote str

/-! The domain structures, mirroring the Go structs field by field.
Go `string`-backed named types (`ObjectType`, `CardType`, `Brand`,
`Currency`, `CustomerID`) are modelled as `String`; Go `int`/`int64` as
`Int`; Go pointers as `Option`.  The Go field `Type` is called `type'`
here because `Type` is reserved in Lean, and fields whose Go name equals
their Go type name (`ObjectType`, `FraudCheckData`) are lower-cased. -/

structure FraudCheckData where
  IPAddress : String
  IPCountry : String
  Email : String
  UserAgent : String
  AcceptLanguage : String
  deriving DecidableEq

structure Card where
  ID : String
  objectType : String
  CreatedAt : Int
  First6Digits : String
  Last4Digits : String
  FingerPrint : String
  ExpiryMonth : Int
  ExpiryYear : Int
  CardHolderName : String
  CustomerID : String
  Brand : String
  type' : String
  Country : String
  City : String
  State : String
  ZIP : String
  AddressLine1 : String
  AddressLine2 : String
  fraudCheckData : Option FraudCheckData
  deriving DecidableEq

structure AddCardRequest where
  CustomerID : String
  card : Option Card
  deriving DecidableEq

structure Address where
  Zip : String
  Line1 : String
  Line2 : String
  City : String
  State : String
  Country : String
  deriving DecidableEq

structure Shipping where
  Name : String
  address : Option Address
  deriving DecidableEq

structure Billing where
  address : Option Address
  VAT : String
  deriving DecidableEq

/-- The polymorphic `Card interface{}` field of a `Charge`: nil, a
string (card token or card identifier), or full card details. -/
inductive CardField where
  | unset
  | str (s : String)
  | card (c : Card)
  deriving DecidableEq

/-- Models the Go comparison `creq.Card == nil || creq.Card == ""`: true
for a nil interface or for an interface holding the empty string. -/
def CardField.isBlank : CardField → Bool
  | .unset => true
  | .str s => s = ""
  | .card _ => false

structure Charge where
  AmountMinorCurrencyUnits : Int
  Currency : String
  Description : String
  card : CardField
  CustomerID : String
  shipping : Option Shipping
  billing : Option Billing
  Captured : Bool
  deriving DecidableEq

structure TokenRequest where
  CardNumber : String
  ExpiryMonth : Int
  ExpiryYear : Int
  SecurityCode : String
  CardHolderName : String
  City : String
  State : String
  ZIP : String
  AddressLine1 : String
  AddressLine2 : String
  Country : String
  fraudCheckData : Option FraudCheckData
  deriving DecidableEq

structure CreditRequest where
  Limit : Int
  CustomerID : String
  CreatedAfter : Int
  CreatedOnOrAfter : Int
  CreatedBefore : Int
  CreatedOnOrBefore : Int
  StartingAfterId : String
  EndingBeforeId : String
  IncludeTotalCount : Bool
  deriving DecidableEq

/-- The Go zero value of `CreditRequest`, which `new(CreditRequest)`
produces for a nil argument to `ListCredits`. -/
def CreditRequest.zero : CreditRequest :=
  { Limit := 0, CustomerID := "", CreatedAfter := 0, CreatedOnOrAfter := 0,
    CreatedBefore := 0, CreatedOnOrBefore := 0, StartingAfterId := "",
    EndingBeforeId := "", IncludeTotalCount := false }

/-! JSON marshaling of the structures, in Go struct-field order. -/

def marshalFraudCheckDataFields (f : FraudCheckData) : List (String × JValue) :=
  optStrField "ipAddress" f.IPAddress ++
  optStrField "ipCountry" f.IPCountry ++
  optStrField "email" f.Email ++
  optStrField "userAgent" f.UserAgent ++
  [("acceptLanguage", .str f.AcceptLanguage)]

def marshalFraudCheckData (f : FraudCheckData) : JValue :=
  .obj (marshalFraudCheckDataFields f)

def marshalCardFields (c : Card) : List (String × JValue) :=
  [("id", .str c.ID),
   ("objectType", .str (objectTypeValue c.objectType)),
   ("created", .num c.CreatedAt),
   ("first6", .str c.First6Digits),
   ("last4", .str c.Last4Digits),
   ("fingerprint", .str c.FingerPrint),
   ("expMonth", .str (printInt c.ExpiryMonth)),
   ("expYear", .str (printInt c.ExpiryYear)),
   ("cardholderName", .str c.CardHolderName),
   ("customerId", .str c.CustomerID),
   ("brand", .str c.Brand),
   ("type", .str c.type')] ++
  optStrField "addressCountry" c.Country ++
  optStrField "addressCity" c.City ++
  optStrField "addressState" c.State ++
  optStrField "addressZip" c.ZIP ++
  optStrField "addressLine1" c.AddressLine1 ++
  optStrField "addressLine2" c.AddressLine2 ++
  [("fraudCheckData", match c.fraudCheckData with
    | none => .null
    | some f => marshalFraudCheckData f)]

def marshalCard (c : Card) : JValue := .obj (marshalCardFields c)

def marshalAddress (a : Address) : JValue :=
  .obj [("zip", .str a.Zip), ("line1", .str a.Line1), ("line2", .str a.Line2),
        ("city", .str a.City), ("state", .str a.State), ("country", .str a.Country)]

def marshalShipping (s : Shipping) : JValue :=
  .obj [("name", .str s.Name),
        ("address", match s.address with | none => .null | some a => marshalAddress a)]

def marshalBilling (b : Billing) : JValue :=
  .obj [("address", match b.address with | none => .null | some a => marshalAddress a),
        ("vat", .str b.VAT)]

def marshalChargeFields (ch : Charge) : List (String × JValue) :=
  [("amount", .str (printInt ch.AmountMinorCurrencyUnits)),
   ("currency", .str ch.Currency),
   ("description", .str ch.Description)] ++
  (match ch.card with
   | .unset => []
   | .str s => [("card", .str s)]
   | .card c => [("card", marshalCard c)]) ++
  optStrField "customerId" ch.CustomerID ++
  (match ch.shipping with
   | none => []
   | some s => [("shipping", marshalShipping s)]) ++
  (match ch.billing with
   | none => []
   | some b => [("billing", marshalBilling b)]) ++
  (if ch.Captured then [("captured", .bool true)] else [])

def marshalCharge (ch : Charge) : JValue := .obj (marshalChargeFields ch)

def marshalTokenRequest (t : TokenRequest) : JValue :=
  .obj ([("number", .str t.CardNumber),
         ("expMonth", .str (printInt t.ExpiryMonth)),
         ("expYear", .str (printInt t.ExpiryYear)),
         ("cvc", .str t.SecurityCode),
         ("cardholderName", .str t.CardHolderName)] ++
        optStrField "addressCity" t.City ++
        optStrField "addressState" t.State ++
        optStrField "addressZip" t.ZIP ++
        optStrField "addressLine1" t.AddressLine1 ++
        optStrField "addressLine2" t.AddressLine2 ++
        optStrField "addressCountry" t.Country ++
        [("fraudCheckData", match t.fraudCheckData with
          | none => .null
          | some f => marshalFraudCheckData f)])

/-! JSON decoding, modelling `encoding/json.Unmarshal` into the typed
structures: an absent key or a JSON `null` leaves the field at its zero
value, a wrong kind of value is an error, and fields tagged with the
string option decode via the decimal parser. -/

def getStrField (fields : List (String × JValue)) (key : String) : Except String String :=
  match lookupField key fields with
  | none => .ok ""
  | some .null => .ok ""
  | some (.str s) => .ok s
  | some _ => .error ("json: cannot unmarshal value into string field " ++ key)

def getNumField (fields : List (String × JValue)) (key : String) : Except String Int :=
  match lookupField key fields with
  | none => .ok 0
  | some .null => .ok 0
  | some (.num n) => .ok n
  | some _ => .error ("json: cannot unmarshal value into int field " ++ key)

def getIntStringField (fields : List (String × JValue)) (key : String) : Except String Int :=
  match lookupField key fields with
  | none => .ok 0
  | some .null => .ok 0
  | some (.str s) =>
    (match parseIntStr s with
     | some i => .ok i
     | none => .error ("json: invalid decimal literal in field " ++ key))
  | some _ => .error ("json: string option applied to non-string in field " ++ key)

def unmarshalFraudCheckData (j : JValue) : Except String FraudCheckData :=
  match j with
  | .obj fields => do
    let ipAddress ← getStrField fields "ipAddress"
    let ipCountry ← getStrField fields "ipCountry"
    let email ← getStrField fields "email"
    let userAgent ← getStrField fields "userAgent"
    let acceptLanguage ← getStrField fields "acceptLanguage"
    .ok { IPAddress := ipAddress, IPCountry := ipCountry, Email := email,
          UserAgent := userAgent, AcceptLanguage := acceptLanguage }
  | _ => .error "json: cannot unmarshal value into FraudCheckData"

def getFraudField (fields : List (String × JValue)) (key : String) :
    Except String (Option FraudCheckData) :=
  match lookupField key fields with
  | none => .ok none
  | some .null => .ok none
  | some (.obj gs) => (unmarshalFraudCheckData (.obj gs)).map some
  | some _ => .error ("json: cannot unmarshal value into pointer field " ++ key)

def unmarshalCard (j : JValue) : Except String Card :=
  match j with
  | .obj fields => do
    let id ← getStrField fields "id"
    let objectType ← getStrField fields "objectType"
    let created ← getNumField fields "created"
    let first6 ← getStrField fields "first6"
    let last4 ← getStrField fields "last4"
    let fingerprint ← getStrField fields "fingerprint"
    let expMonth ← getIntStringField fields "expMonth"
    let expYear ← getIntStringField fields "expYear"
    let cardholderName ← getStrField fields "cardholderName"
    let customerId ← getStrField fields "customerId"
    let brand ← getStrField fields "brand"
    let cardType ← getStrField fields "type"
    let country ← getStrField fields "addressCountry"
    let city ← getStrField fields "addressCity"
    let state ← getStrField fields "addressState"
    let zip ← getStrField fields "addressZip"
    let line1 ← getStrField fields "addressLine1"
    let line2 ← getStrField fields "addressLine2"
    let fraud ← getFraudField fields "fraudCheckData"
    .ok { ID := id, objectType := objectType, CreatedAt := created,
          First6Digits := first6, Last4Digits := last4, FingerPrint := fingerprint,
          ExpiryMonth := expMonth, ExpiryYear := expYear,
          CardHolderName := cardholderName, CustomerID := customerId,
          Brand := brand, type' := cardType, Country := country, City := city,
          State := state, ZIP := zip, AddressLine1 := line1, AddressLine2 := line2,
          fraudCheckData := fraud }
  | _ => .error "json: cannot unmarshal value into Card"

/-! Validators, endpoints and the pre-network part of each client
operation.  An operation either fails locally or produces the HTTP
request it would hand to the transport pipeline; each operation is
paired with the value of the caller's request object after the call,
threading every write the Go code could make through the passed-in
pointer (there are none). -/

/-- Models `Card.Validate` on a possibly-nil receiver. -/
def cardValidate : Option Card → Option GoErr
  | none => some .errBlankCard
  | some c => if trimSpace c.ID = "" then some .errUnsetCardID else none

/-- Models `Charge.Validate` on a possibly-nil receiver. -/
def chargeValidate : Option Charge → Option GoErr
  | none => some .errBlankCharge
  | some r =>
    if r.card.isBlank && r.CustomerID = "" then
      some .errEitherBlankCardOrCustomerIDMustBeSet
    else none

/-- Models `TokenRequest.Validate` on a possibly-nil receiver. -/
def tokenRequestValidate : Option TokenRequest → Option GoErr
  | none => some .errNilTokenRequest
  | some t => if trimSpace t.SecurityCode = "" then some .errEmptySecurityCode else none

def chargeEndpointURL : String := "https://api.securionpay.com/charges"

def tokensEndpointURL : String := "https://api.securionpay.com/tokens"

/-- Models `AddCardRequest.generateURL`: the Go endpoint is a
`text/template` that splices the request's `CustomerID` field between
the fixed customers prefix and the `/cards` suffix.  The template is
fixed and well-formed, so execution cannot fail. -/
def addCardGenerateURL (acr : AddCardRequest) : String :=
  "https://api.securionpay.com/customers/" ++ acr.CustomerID ++ "/cards"

/-- What an operation does before (and instead of) touching the network:
either fail with a local validation error, or dispatch one HTTP
request. -/
inductive OpStep where
  | fail (e : GoErr)
  | send (method : String) (url : String) (body : Option JValue)

/-- Models `Client.AddCard` up to the network dispatch.  Note the blank
customer-identifier branch returns `errUnsetCardID` — the source reuses
the card-identifier error there and never uses its own
`errInvalidCustomerID` value. -/
def addCardProc (acr : Option AddCardRequest) : OpStep × Option AddCardRequest :=
  match acr with
  | none => (.fail .errBlankAddCardRequest, none)
  | some r =>
    match cardValidate r.card, r.card with
    | some e, _ => (.fail e, some r)
    | none, none => (.fail .errBlankCard, some r)
    | none, some card =>
      if trimSpace r.CustomerID = "" then (.fail .errUnsetCardID, some r)
      else (.send "POST" (addCardGenerateURL r) (some (marshalCard card)), some r)

/-- Models `Client.Charge` up to the network dispatch. -/
def chargeProc (creq : Option Charge) : OpStep × Option Charge :=
  match chargeValidate creq, creq with
  | some e, _ => (.fail e, creq)
  | none, none => (.fail .errBlankCharge, none)
  | none, some r => (.send "POST" chargeEndpointURL (some (marshalCharge r)), some r)

/-- Models `Client.NewToken` up to the network dispatch. -/
def newTokenProc (treq : Option TokenRequest) : OpStep × Option TokenRequest :=
  match tokenRequestValidate treq, treq with
  | some e, _ => (.fail e, treq)
  | none, none => (.fail .errNilTokenRequest, none)
  | none, some t => (.send "POST" tokensEndpointURL (some (marshalTokenRequest t)), some t)

/-- Models `Client.FindTokenByID` up to the network dispatch.  The Go
code reassigns its local parameter copy to the trimmed identifier; the
caller's string is passed by value and cannot change. -/
def findTokenByIDProc (tokenID : String) : OpStep × String :=
  let trimmed := trimSpace tokenID
  if trimmed = "" then (.fail .errBlankTokenID, tokenID)
  else (.send "GET" (tokensEndpointURL ++ "/" ++ trimmed) none, tokenID)

def defaultCreditLimit : Int := 3

/-- Models `Client.ListCredits` up to the network dispatch: the request
is copied into a private `new(CreditRequest)` (the zero value for a nil
argument), the copy's limit is defaulted when below 1, and the copy is
query-encoded into the credits URL (the encoding itself, Go's
`otils.ToURLValues`, cannot fail on this struct and is external to the
repository, so the copy is returned in place of the encoded query).  The
first component is the request used to build the query; the second is
the caller's request value after the call. -/
def listCreditsProc (cr : Option CreditRequest) : CreditRequest × Option CreditRequest :=
  let creq := match cr with
    | none => CreditRequest.zero
    | some r => r
  let creq := if creq.Limit < 1 then { creq with Limit := defaultCreditLimit } else creq
  (creq, cr)

/-! The transport pipeline's response classification. -/

/-- A received HTTP response.  `Body` is the fully-read body; the Go
HTTP client guarantees a non-nil `Body` on every response it returns,
which makes the source's defensive nil checks vacuous, so the body is a
plain (possibly empty) string here. -/
structure HTTPResponse where
  StatusCode : Nat
  Status : String
  Body : String
  deriving DecidableEq

/-- Models `otils.StatusOK` from the client's helper-library dependency:
a status code is a success exactly when it lies in [200, 299]. -/
def statusOK (code : Nat) : Bool := 200 ≤ code && code ≤ 299

/-- Models the response half of `Client.doAuthThenReqAndSlurpResponse`:
a non-2xx response becomes an error carrying the body when the body is
non-empty and the status line otherwise; a 2xx response yields the raw
body bytes. -/
def doAuthThenReqAndSlurpResponse (res : HTTPResponse) : Except String String :=
  if !statusOK res.StatusCode then
    let errMsg := if res.Body.length > 0 then res.Body else res.Status
    .error errMsg
  else
    .ok res.Body

/-! Concrete values used by witness and counterexample theorems (field
values taken from the repository's examples and test fixtures), and a
decidable-equality helper for `Except`. -/

def sampleCard : Card :=
  { ID := "card_8P7OWXA5xiTS1ISnyZcum1KV", objectType := "", CreatedAt := 1415810511,
    First6Digits := "424242", Last4Digits := "4242", FingerPrint := "e3d8suyIDgFg3pE7",
    ExpiryMonth := 11, ExpiryYear := 2022, CardHolderName := "John Doe",
    CustomerID := "cust_AoR0wvgntQWRUYMdZNLYMz5R", Brand := "Visa", type' := "Credit Card",
    Country := "", City := "", State := "", ZIP := "", AddressLine1 := "",
    AddressLine2 := "", fraudCheckData := none }

/-- A card whose object type is populated but padded with white space. -/
def paddedCard : Card := { sampleCard with objectType := " visa " }

/-- The Go zero value of `Charge`. -/
def Charge.zero : Charge :=
  { AmountMinorCurrencyUnits := 0, Currency := "", Description := "", card := .unset,
    CustomerID := "", shipping := none, billing := none, Captured := false }

/-- The Go zero value of `TokenRequest`. -/
def TokenRequest.zero : TokenRequest :=
  { CardNumber := "", ExpiryMonth := 0, ExpiryYear := 0, SecurityCode := "",
    CardHolderName := "", City := "", State := "", ZIP := "", AddressLine1 := "",
    AddressLine2 := "", Country := "", fraudCheckData := none }

instance {ε α : Type} [DecidableEq ε] [DecidableEq α] : DecidableEq (Except ε α) :=
  fun x y =>
    match x, y with
    | .ok a, .ok b =>
      if h : a = b then isTrue (by rw [h]) else isFalse (by intro q; cases q; exact h rfl)
    | .error a, .error b =>
      if h : a = b then isTrue (by rw [h]) else isFalse (by intro q; cases q; exact h rfl)
    | .ok _, .error _ => isFalse (by intro q; cases q)
    | .error _, .ok _ => isFalse (by intro q; cases q)

end Securionpay

namespace Securionpay

theorem charToDigit_digitToChar (d : Nat) (h : d < 10) :
    charToDigit (digitToChar d) = d := by
  interval_cases d <;> rfl

theorem isDigitChar_digitToChar (d : Nat) : isDigitChar (digitToChar d) = true := by
  rcases d with _ | _ | _ | _ | _ | _ | _ | _ | _ | _ | d <;> rfl

theorem printNatAux_foldr (f : Nat) :
    ∀ n, n ≤ f →
      (printNatAux f n).foldr (fun c acc => 10 * acc + charToDigit c) 0 = n := by
  induction f with
  | zero => intro n hn; interval_cases n; rfl
  | succ f ih =>
    intro n hn
    match n with
    | 0 => rfl
    | m + 1 =>
      have hdiv : (m + 1) / 10 ≤ f := by omega
      simp only [printNatAux, List.foldr_cons]
      rw [ih _ hdiv, charToDigit_digitToChar _ (by omega)]
      omega

theorem printNatAux_digits (f : Nat) :
    ∀ n, ∀ c ∈ printNatAux f n, isDigitChar c = true := by
  induction f with
  | zero => intro n c hc; simp [printNatAux] at hc
  | succ f ih =>
    intro n c hc
    match n with
    | 0 => simp [printNatAux] at hc
    | m + 1 =>
      simp only [printNatAux, List.mem_cons] at hc
      rcases hc with rfl | hc
      · exact isDigitChar_digitToChar _
      · exact ih _ _ hc

theorem printNatAux_ne_nil (n : Nat) (h : 0 < n) : printNatAux n n ≠ [] := by
  match n, h with
  | m + 1, _ => simp [printNatAux]

theorem parseNatChars_printNatCore (n : Nat) :
    parseNatChars (printNatCore n) = some n := by
  unfold printNatCore
  by_cases h : n = 0
  · subst h; rfl
  · rw [if_neg h]
    have hne : printNatAux n n ≠ [] := printNatAux_ne_nil n (by omega)
    have hall : ((printNatAux n n).reverse.all isDigitChar) = true := by
      simp only [List.all_eq_true, List.mem_reverse]
      exact printNatAux_digits n n
    unfold parseNatChars
    rw [if_neg (by simpa using hne), if_pos hall]
    unfold parseNatList
    rw [List.foldl_reverse]
    exact congrArg some (printNatAux_foldr n n le_rfl)

theorem isDigitChar_ne_sign (c : Char) (h : isDigitChar c = true) :
    c ≠ '+' ∧ c ≠ '-' := by
  constructor <;> rintro rfl <;> simp [isDigitChar] at h

theorem parseIntStr_printInt (i : Int) : parseIntStr (printInt i) = some i := by
  unfold printInt
  by_cases h : i < 0
  · rw [if_pos h]
    show parseIntStr ⟨'-' :: printNatCore i.natAbs⟩ = some i
    have : parseIntStr ⟨'-' :: printNatCore i.natAbs⟩ =
        (parseNatChars (printNatCore i.natAbs)).map (fun n => -(n : Int)) := rfl
    rw [this, parseNatChars_printNatCore]
    exact congrArg some (by omega : -((i.natAbs : Int)) = i)
  · rw [if_neg h]
    obtain ⟨c, rest, hcr⟩ : ∃ c rest, printNatCore i.toNat = c :: rest := by
      unfold printNatCore
      by_cases h0 : i.toNat = 0
      · exact ⟨'0', [], by rw [if_pos h0]⟩
      · rw [if_neg h0]
        rcases he : (printNatAux i.toNat i.toNat).reverse with _ | ⟨c, rest⟩
        · exact absurd (by simpa using he) (printNatAux_ne_nil _ (by omega))
        · exact ⟨c, rest, rfl⟩
    have hdig : isDigitChar c = true := by
      have : c ∈ printNatCore i.toNat := by rw [hcr]; exact List.mem_cons_self _ _
      unfold printNatCore at this
      by_cases h0 : i.toNat = 0
      · rw [if_pos h0] at this; simp at this; subst this; rfl
      · rw [if_neg h0] at this
        exact printNatAux_digits _ _ _ (List.mem_reverse.mp this)
    obtain ⟨hplus, hminus⟩ := isDigitChar_ne_sign c hdig
    rw [hcr]
    show parseIntStr ⟨c :: rest⟩ = some i
    have : parseIntStr ⟨c :: rest⟩ =
        (parseNatChars (c :: rest)).map (fun n => (n : Int)) := by
      show (if c = '+' then (parseNatChars rest).map (fun n => (n : Int))
            else if c = '-' then (parseNatChars rest).map (fun n => -(n : Int))
            else (parseNatChars (c :: rest)).map (fun n => (n : Int))) = _
      rw [if_neg hplus, if_neg hminus]
    rw [this, ← hcr, parseNatChars_printNatCore]
    exact congrArg some (by omega : ((i.toNat : Int)) = i)

/-! Helper lemmas about the JSON model. -/

theorem exceptBind_ok {ε α β : Type} (a : α) (f : α → Except ε β) :
    (Except.ok a >>= f : Except ε β) = f a := rfl

theorem lookupField_optStrField (key k s : String) (rest : List (String × JValue)) :
    lookupField key (optStrField k s ++ rest) =
      if k = key ∧ s ≠ "" then some (.str s) else lookupField key rest := by
  unfold optStrField
  split_ifs with h1 h2 <;> simp_all [lookupField]

theorem string_length_pos (s : String) (h : s ≠ "") : 0 < s.length := by
  cases s with
  | mk l =>
    cases l with
    | nil => exact absurd rfl h
    | cons c cs => simp [String.length]

/-! Field-by-field decode of a marshaled `FraudCheckData` and `Card`. -/

theorem fraud_getStr_ipAddress (f : FraudCheckData) :
    getStrField (marshalFraudCheckDataFields f) "ipAddress" = .ok f.IPAddress := by
  rcases eq_or_ne f.IPAddress "" with h | h <;>
    simp [marshalFraudCheckDataFields, getStrField, lookupField_optStrField, lookupField, h]

theorem fraud_getStr_ipCountry (f : FraudCheckData) :
    getStrField (marshalFraudCheckDataFields f) "ipCountry" = .ok f.IPCountry := by
  rcases eq_or_ne f.IPCountry "" with h | h <;>
    simp [marshalFraudCheckDataFields, getStrField, lookupField_optStrField, lookupField, h]

theorem fraud_getStr_email (f : FraudCheckData) :
    getStrField (marshalFraudCheckDataFields f) "email" = .ok f.Email := by
  rcases eq_or_ne f.Email "" with h | h <;>
    simp [marshalFraudCheckDataFields, getStrField, lookupField_optStrField, lookupField, h]

theorem fraud_getStr_userAgent (f : FraudCheckData) :
    getStrField (marshalFraudCheckDataFields f) "userAgent" = .ok f.UserAgent := by
  rcases eq_or_ne f.UserAgent "" with h | h <;>
    simp [marshalFraudCheckDataFields, getStrField, lookupField_optStrField, lookupField, h]

theorem fraud_getStr_acceptLanguage (f : FraudCheckData) :
    getStrField (marshalFraudCheckDataFields f) "acceptLanguage" = .ok f.AcceptLanguage := by
  simp [marshalFraudCheckDataFields, getStrField, lookupField_optStrField, lookupField]

theorem fraud_fields_roundtrip (f : FraudCheckData) :
    unmarshalFraudCheckData (.obj (marshalFraudCheckDataFields f)) = .ok f := by
  simp only [unmarshalFraudCheckData, fraud_getStr_ipAddress, fraud_getStr_ipCountry,
    fraud_getStr_email, fraud_getStr_userAgent, fraud_getStr_acceptLanguage, exceptBind_ok]

theorem card_getStr_id (c : Card) :
    getStrField (marshalCardFields c) "id" = .ok c.ID := by
  simp [marshalCardFields, getStrField, lookupField]

theorem card_getStr_objectType (c : Card) :
    getStrField (marshalCardFields c) "objectType" = .ok (objectTypeValue c.objectType) := by
  simp [marshalCardFields, getStrField, lookupField]

theorem card_getNum_created (c : Card) :
    getNumField (marshalCardFields c) "created" = .ok c.CreatedAt := by
  simp [marshalCardFields, getNumField, lookupField]

theorem card_getStr_first6 (c : Card) :
    getStrField (marshalCardFields c) "first6" = .ok c.First6Digits := by
  simp [marshalCardFields, getStrField, lookupField]

theorem card_getStr_last4 (c : Card) :
    getStrField (marshalCardFields c) "last4" = .ok c.Last4Digits := by
  simp [marshalCardFields, getStrField, lookupField]

theorem card_getStr_fingerprint (c : Card) :
    getStrField (marshalCardFields c) "fingerprint" = .ok c.FingerPrint := by
  simp [marshalCardFields, getStrField, lookupField]

theorem card_getInt_expMonth (c : Card) :
    getIntStringField (marshalCardFields c) "expMonth" = .ok c.ExpiryMonth := by
  simp [marshalCardFields, getIntStringField, lookupField, parseIntStr_printInt]

theorem card_getInt_expYear (c : Card) :
    getIntStringField (marshalCardFields c) "expYear" = .ok c.ExpiryYear := by
  simp [marshalCardFields, getIntStringField, lookupField, parseIntStr_printInt]

theorem card_getStr_cardholderName (c : Card) :
    getStrField (marshalCardFields c) "cardholderName" = .ok c.CardHolderName := by
  simp [marshalCardFields, getStrField, lookupField]

theorem card_getStr_customerId (c : Card) :
    getStrField (marshalCardFields c) "customerId" = .ok c.CustomerID := by
  simp [marshalCardFields, getStrField, lookupField]

theorem card_getStr_brand (c : Card) :
    getStrField (marshalCardFields c) "brand" = .ok c.Brand := by
  simp [marshalCardFields, getStrField, lookupField]

theorem card_getStr_type (c : Card) :
    getStrField (marshalCardFields c) "type" = .ok c.type' := by
  simp [marshalCardFields, getStrField, lookupField]

theorem card_getStr_country (c : Card) :
    getStrField (marshalCardFields c) "addressCountry" = .ok c.Country := by
  rcases eq_or_ne c.Country "" with h | h <;>
    simp [marshalCardFields, getStrField, lookupField_optStrField, lookupField, h]

theorem card_getStr_city (c : Card) :
    getStrField (marshalCardFields c) "addressCity" = .ok c.City := by
  rcases eq_or_ne c.City "" with h | h <;>
    simp [marshalCardFields, getStrField, lookupField_optStrField, lookupField, h]

theorem card_getStr_state (c : Card) :
    getStrField (marshalCardFields c) "addressState" = .ok c.State := by
  rcases eq_or_ne c.State "" with h | h <;>
    simp [marshalCardFields, getStrField, lookupField_optStrField, lookupField, h]

theorem card_getStr_zip (c : Card) :
    getStrField (marshalCardFields c) "addressZip" = .ok c.ZIP := by
  rcases eq_or_ne c.ZIP "" with h | h <;>
    simp [marshalCardFields, getStrField, lookupField_optStrField, lookupField, h]

theorem card_getStr_line1 (c : Card) :
    getStrField (marshalCardFields c) "addressLine1" = .ok c.AddressLine1 := by
  rcases eq_or_ne c.AddressLine1 "" with h | h <;>
    simp [marshalCardFields, getStrField, lookupField_optStrField, lookupField, h]

theorem card_getStr_line2 (c : Card) :
    getStrField (marshalCardFields c) "addressLine2" = .ok c.AddressLine2 := by
  rcases eq_or_ne c.AddressLine2 "" with h | h <;>
    simp [marshalCardFields, getStrField, lookupField_optStrField, lookupField, h]

theorem card_getFraud (c : Card) :
    getFraudField (marshalCardFields c) "fraudCheckData" = .ok c.fraudCheckData := by
  rcases hf : c.fraudCheckData with _ | f <;>
    simp [marshalCardFields, getFraudField, lookupField_optStrField, lookupField, hf,
      marshalFraudCheckData, fraud_fields_roundtrip, Except.map]

theorem card_fields_roundtrip (c : Card) :
    unmarshalCard (.obj (marshalCardFields c)) =
      .ok { c with objectType := objectTypeValue c.objectType } := by
  simp only [unmarshalCard, card_getStr_id, card_getStr_objectType, card_getNum_created,
    card_getStr_first6, card_getStr_last4, card_getStr_fingerprint, card_getInt_expMonth,
    card_getInt_expYear, card_getStr_cardholderName, card_getStr_customerId,
    card_getStr_brand, card_getStr_type, card_getStr_country, card_getStr_city,
    card_getStr_state, card_getStr_zip, card_getStr_line1, card_getStr_line2,
    card_getFraud, exceptBind_ok]

/-! Claim theorems. -/

/-- C1: the claim says decoding the literal `null` into a
customer-identifier field succeeds and yields the empty string.  The
code disagrees: `CustomerID.UnmarshalJSON` computes the coerced string
but then unquotes the original bytes, and `strconv.Unquote` rejects
`null` (it is not wrapped in quotes), so the decode returns the syntax
error — while a properly quoted identifier decodes fine.  This
contradicts the function's own special-case comment, so the claim is
recorded as a code bug and this theorem evaluates the code at the
failing input. -/
theorem customerIDUnmarshalNullFails :
    customerIDUnmarshalJSON "null" = .error .errSyntax ∧
    goUnquote "null" = .error .errSyntax ∧
    customerIDUnmarshalJSON "\"cust_1\"" = .ok "cust_1" := by
  refine ⟨rfl, rfl, rfl⟩

/-- C2: the claim says a blank (after trimming) owning customer
identifier makes `AddCard` return the invalid-customer error, distinct
from the card errors.  The code instead returns `errUnsetCardID` — the
same error used for a blank card identifier — and never uses its
declared `errInvalidCustomerID`; recorded as a code bug.  The theorem
evaluates `AddCard` at the failing input (first conjunct), shows the two
errors are distinct values (second), and confirms the card-side checks
the claim also states: a nil request, a nil card and a blank card
identifier fail with their respective errors before any request is
built. -/
theorem addCardBlankCustomerReturnsCardIDError :
    (addCardProc (some { CustomerID := "", card := some sampleCard })).1 =
      .fail .errUnsetCardID ∧
    GoErr.errUnsetCardID ≠ GoErr.errInvalidCustomerID ∧
    (addCardProc none).1 = .fail .errBlankAddCardRequest ∧
    (addCardProc (some { CustomerID := "cust_1", card := none })).1 = .fail .errBlankCard ∧
    (addCardProc (some { CustomerID := "cust_1", card := some { sampleCard with ID := " " } })).1 =
      .fail .errUnsetCardID := by
  refine ⟨rfl, by decide, rfl, rfl, rfl⟩

/-- C3: the transport pipeline classifies every received response by
status code: outside [200, 299] it fails with the response body as the
message when the body is non-empty and with the status line otherwise;
within [200, 299] it returns the raw body unchanged. -/
theorem transportPipelineClassification (res : HTTPResponse) :
    (res.StatusCode < 200 ∨ 299 < res.StatusCode → res.Body ≠ "" →
      doAuthThenReqAndSlurpResponse res = .error res.Body) ∧
    (res.StatusCode < 200 ∨ 299 < res.StatusCode → res.Body = "" →
      doAuthThenReqAndSlurpResponse res = .error res.Status) ∧
    (200 ≤ res.StatusCode → res.StatusCode ≤ 299 →
      doAuthThenReqAndSlurpResponse res = .ok res.Body) := by
  have hbad : res.StatusCode < 200 ∨ 299 < res.StatusCode →
      statusOK res.StatusCode = false := by
    intro h
    cases hq : statusOK res.StatusCode
    · rfl
    · exfalso; simp [statusOK] at hq; rcases h with h | h <;> omega
  refine ⟨?_, ?_, ?_⟩
  · intro h hb
    have hlen : 0 < res.Body.length := string_length_pos _ hb
    simp [doAuthThenReqAndSlurpResponse, hbad h, hlen]
  · intro h hb
    simp [doAuthThenReqAndSlurpResponse, hbad h, hb, String.length]
  · intro h1 h2
    have hs : statusOK res.StatusCode = true := by simp [statusOK]; omega
    simp [doAuthThenReqAndSlurpResponse, hs]

/-- Witness for C3 at concrete responses: the spec's own example (status
400 with a JSON error body) surfaces verbatim as the error message, an
empty-bodied 404 surfaces as its status line, and a 200 returns the raw
body. -/
theorem transportPipelineClassification_witness :
    doAuthThenReqAndSlurpResponse
      { StatusCode := 400, Status := "400 Bad Request",
        Body := "\x7b\"error\":\"invalid customerID\"\x7d" } =
      .error "\x7b\"error\":\"invalid customerID\"\x7d" ∧
    doAuthThenReqAndSlurpResponse
      { StatusCode := 404, Status := "404 Not Found", Body := "" } =
      .error "404 Not Found" ∧
    doAuthThenReqAndSlurpResponse
      { StatusCode := 200, Status := "200 OK", Body := "payload" } = .ok "payload" :=
  ⟨(transportPipelineClassification _).1 (by decide) (by decide),
   (transportPipelineClassification _).2.1 (by decide) rfl,
   (transportPipelineClassification _).2.2 (by decide) (by decide)⟩

/-- C4: a charge whose polymorphic card field is a nil interface and
whose customer identifier is empty fails with the
missing-payment-source error (`errEitherBlankCardOrCustomerIDMustBeSet`)
before any request is built, and a nil charge fails with the blank-charge
error before any request is built. -/
theorem chargeMissingPaymentSource :
    (chargeProc none).1 = .fail .errBlankCharge ∧
    ∀ r : Charge, r.card = .unset → r.CustomerID = "" →
      (chargeProc (some r)).1 = .fail .errEitherBlankCardOrCustomerIDMustBeSet := by
  refine ⟨rfl, ?_⟩
  intro r hc hid
  have hv : chargeValidate (some r) = some .errEitherBlankCardOrCustomerIDMustBeSet := by
    simp [chargeValidate, hc, hid, CardField.isBlank]
  simp [chargeProc, hv]

/-- Witness for C4: the zero charge has both payment sources unset and
is rejected with the missing-payment-source error. -/
theorem chargeMissingPaymentSource_witness :
    (chargeProc (some Charge.zero)).1 = .fail .errEitherBlankCardOrCustomerIDMustBeSet :=
  chargeMissingPaymentSource.2 Charge.zero rfl rfl

/-- C5: a token request whose security code is blank after trimming
fails with the missing-security-code error before any request is built,
and a nil token request fails with the nil-request error before any
request is built. -/
theorem newTokenMissingSecurityCode :
    (newTokenProc none).1 = .fail .errNilTokenRequest ∧
    ∀ t : TokenRequest, trimSpace t.SecurityCode = "" →
      (newTokenProc (some t)).1 = .fail .errEmptySecurityCode := by
  refine ⟨rfl, ?_⟩
  intro t ht
  have hv : tokenRequestValidate (some t) = some .errEmptySecurityCode := by
    simp [tokenRequestValidate, ht]
  simp [newTokenProc, hv]

/-- Witness for C5: a request whose security code is white space only is
rejected with the missing-security-code error. -/
theorem newTokenMissingSecurityCode_witness :
    (newTokenProc (some { TokenRequest.zero with SecurityCode := "   " })).1 =
      .fail .errEmptySecurityCode :=
  newTokenMissingSecurityCode.2 _ (by decide)

/-- C6: a token identifier that is blank after trimming makes
`FindTokenByID` fail with the blank-token error before any request is
built; otherwise the dispatched request is a GET on the fixed tokens
endpoint with the trimmed identifier appended as a path segment. -/
theorem findTokenByIDTrimsAndResolves (tokenID : String) :
    (trimSpace tokenID = "" → (findTokenByIDProc tokenID).1 = .fail .errBlankTokenID) ∧
    (trimSpace tokenID ≠ "" →
      (findTokenByIDProc tokenID).1 =
        .send "GET" (tokensEndpointURL ++ "/" ++ trimSpace tokenID) none) := by
  constructor <;> intro h <;> simp [findTokenByIDProc, h]

/-- Witness for C6: a white-space identifier is rejected, and a padded
identifier resolves to the tokens endpoint with the trimmed identifier
appended. -/
theorem findTokenByIDTrimsAndResolves_witness :
    (findTokenByIDProc "   ").1 = .fail .errBlankTokenID ∧
    (findTokenByIDProc " tok_1 ").1 =
      .send "GET" "https://api.securionpay.com/tokens/tok_1" none :=
  ⟨(findTokenByIDTrimsAndResolves "   ").1 (by decide),
   (findTokenByIDTrimsAndResolves " tok_1 ").2 (by decide)⟩

/-- C7: a nil or blank-after-trimming object type marshals to exactly
the five bytes of the quoted literal `"card"`, and the amount and expiry
fields marshal as JSON strings holding the decimal rendering of the
integer (`JValue.str`, never `JValue.num`). -/
theorem objectTypeDefaultAndNumericStrings :
    (∀ ot : Option String, ot = none ∨ (∃ s, ot = some s ∧ trimSpace s = "") →
      objectTypeMarshalJSON ot = "\"card\"") ∧
    (∀ ch : Charge, lookupField "amount" (marshalChargeFields ch) =
      some (.str (printInt ch.AmountMinorCurrencyUnits))) ∧
    (∀ c : Card,
      lookupField "expMonth" (marshalCardFields c) = some (.str (printInt c.ExpiryMonth)) ∧
      lookupField "expYear" (marshalCardFields c) = some (.str (printInt c.ExpiryYear))) := by
  refine ⟨?_, ?_, ?_⟩
  · rintro ot (rfl | ⟨s, rfl, hs⟩)
    · rfl
    · show goQuote (objectTypeValue s) = "\"card\""
      rw [show objectTypeValue s = "card" by simp [objectTypeValue, hs]]
      rfl
  · intro ch
    simp [marshalChargeFields, lookupField]
  · intro c
    constructor <;> simp [marshalCardFields, lookupField]

/-- Witness for C7: a nil object-type pointer and a white-space object
type both marshal to the quoted default. -/
theorem objectTypeDefaultAndNumericStrings_witness :
    objectTypeMarshalJSON none = "\"card\"" ∧ objectTypeMarshalJSON (some "  ") = "\"card\"" :=
  ⟨objectTypeDefaultAndNumericStrings.1 none (Or.inl rfl),
   objectTypeDefaultAndNumericStrings.1 (some "  ") (Or.inr ⟨"  ", rfl, by decide⟩)⟩

/-- C8 counterexample: the claim says marshal-then-unmarshal restores
every populated field of a `Card`.  A card whose object type is the
populated value `" visa "` comes back with object type `"visa"`: the
custom marshaler trims the field, so the round trip is not the
identity. -/
theorem cardRoundTripNotIdentity :
    unmarshalCard (marshalCard paddedCard) = .ok { paddedCard with objectType := "visa" } ∧
    unmarshalCard (marshalCard paddedCard) ≠ .ok paddedCard := by
  constructor
  · rfl
  · decide

/-- C8 (amended): marshal-then-unmarshal restores every populated field
of a `Card` — including the numeric-string expiry fields, which keep
their exact integer values — except the object type, which comes back
as its white-space-trimmed value, defaulting to `"card"` when blank. -/
theorem cardRoundTripTrimsObjectType (c : Card) :
    unmarshalCard (marshalCard c) = .ok { c with objectType := objectTypeValue c.objectType } :=
  card_fields_roundtrip c

/-- C9: no operation writes through the caller's request pointer — on
every call, failed or not, the caller's request object is unchanged
afterwards; in particular `ListCredits` applies its limit defaulting to
a private copy only.  Each operation model threads the caller's request
value through every write the Go code performs; none target it. -/
theorem operationsNeverMutateCallerRequests :
    ∀ (acr : Option AddCardRequest) (ch : Option Charge) (tr : Option TokenRequest)
      (tid : String) (cr : Option CreditRequest),
      (addCardProc acr).2 = acr ∧ (chargeProc ch).2 = ch ∧ (newTokenProc tr).2 = tr ∧
      (findTokenByIDProc tid).2 = tid ∧ (listCreditsProc cr).2 = cr := by
  intro acr ch tr tid cr
  refine ⟨?_, ?_, ?_, ?_, rfl⟩
  · cases acr with
    | none => rfl
    | some r =>
      cases hc : r.card with
      | none => simp [addCardProc, hc, cardValidate]
      | some card =>
        cases hv : cardValidate (some card) with
        | none =>
          simp [addCardProc, hc, hv]
          split_ifs <;> rfl
        | some e => simp [addCardProc, hc, hv]
  · cases ch with
    | none => rfl
    | some r => cases hv : chargeValidate (some r) <;> simp [chargeProc, hv]
  · cases tr with
    | none => rfl
    | some t => cases hv : tokenRequestValidate (some t) <;> simp [newTokenProc, hv]
  · simp only [findTokenByIDProc]
    split <;> rfl

/-- C10: `ListCredits` accepts a nil request and queries with the
default limit 3; a request whose limit is below 1 is queried with the
default limit 3; a request whose limit is at least 1 is passed through
to the query unchanged. -/
theorem listCreditsLimitDefaulting :
    defaultCreditLimit = 3 ∧
    (listCreditsProc none).1.Limit = 3 ∧
    (∀ r : CreditRequest, r.Limit < 1 → (listCreditsProc (some r)).1.Limit = 3) ∧
    (∀ r : CreditRequest, 1 ≤ r.Limit → (listCreditsProc (some r)).1 = r) := by
  refine ⟨rfl, rfl, ?_, ?_⟩
  · intro r h
    simp [listCreditsProc, h, defaultCreditLimit]
  · intro r h
    have hnot : ¬ r.Limit < 1 := by omega
    simp [listCreditsProc, hnot]

/-- Witness for C10: a negative limit is replaced by the default 3, and
a limit of 7 passes through unchanged. -/
theorem listCreditsLimitDefaulting_witness :
    (listCreditsProc (some { CreditRequest.zero with Limit := -2 })).1.Limit = 3 ∧
    (listCreditsProc (some { CreditRequest.zero with Limit := 7 })).1 =
      { CreditRequest.zero with Limit := 7 } :=
  ⟨listCreditsLimitDefaulting.2.2.1 _ (by decide),
   listCreditsLimitDefaulting.2.2.2 _ (by decide)⟩

end Securionpay
